import Mathlib

/-!
Verification of the authentication and access-control subsystem of the
eternalportal repository.  Definitions are shallow embeddings of the
TypeScript source: the RBAC permission engine, the password policy, the
login/lockout state machine, the password-reset token lifecycle, the CSRF
middleware and the JWT payload construction.
-/

namespace EternalPortal

/-! ## Data model (shared/schema.ts, users table) -/

/-- Account status enum, from the schema account_status pgEnum. -/
inductive AccountStatus where
  | active
  | locked
  | suspended
  | inactive
deriving DecidableEq, Repr

/-- User record.  Timestamps are modelled as milliseconds since the epoch
(natural numbers); nullable columns are Options.  The role column is modelled
as an Option String so the defensive fallback in hasPermission is visible. -/
structure User where
  id : Nat
  username : String
  email : String
  password : String
  bio : Option String
  role : Option String
  createdAt : Nat
  lastLogin : Option Nat
  failedLoginAttempts : Nat
  accountStatus : AccountStatus
  passwordResetToken : Option String
  passwordResetExpires : Option Nat
  lastPasswordReset : Option Nat
deriving DecidableEq, Repr

/-! ## RBAC permission engine (server/permissions module)

The Role → Permission table is static configuration: the permission strings
below are exactly the `Resource.Operation` template-literal values built in
the source's rolePermissions record. -/

def adminPermissions : List String :=
  ["users.create", "users.read", "users.update", "users.delete", "users.manage",
   "games.create", "games.read", "games.update", "games.delete", "games.approve",
   "games.reject", "games.publish", "games.manage",
   "categories.create", "categories.read", "categories.update",
   "categories.delete", "categories.manage",
   "download_links.create", "download_links.read", "download_links.update",
   "download_links.delete", "download_links.manage",
   "system_settings.read", "system_settings.update", "system_settings.manage"]

def userPermissions : List String :=
  ["users.read",
   "games.create", "games.read", "games.update", "games.delete", "games.publish",
   "categories.read",
   "download_links.create", "download_links.read", "download_links.update",
   "download_links.delete"]

/-- Lookup `rolePermissions[role] || []` restricted to the object's own keys
"admin" and "user" and to absent keys (undefined, so the fallback engages and
yields the empty list).  This covers the anonymous branch and the two roles
of the static table; the full JavaScript lookup additionally walks the
prototype chain — see rolePermissionsLookup below for the faithful model. -/
def rolePermissions (role : String) : List String :=
  if role = "admin" then adminPermissions
  else if role = "user" then userPermissions
  else []

/-- Models the JavaScript expression `user.role || 'user'`: a missing (null)
or empty role string is falsy and falls back to "user". -/
def jsRole : Option String → String
  | none => "user"
  | some r => if r = "" then "user" else r

/-- `hasPermission(user, permission)` from the source: false for an absent
user, otherwise membership of the permission in the role's permission list
(for the own keys of the table; the throwing prototype-chain cases are
modelled by hasPermissionJs below). -/
def hasPermission (user : Option User) (permission : String) : Bool :=
  match user with
  | none => false
  | some u => (rolePermissions (jsRole u.role)).contains permission

/-- The possible values of the JavaScript property read
`rolePermissions[role]` on the plain object literal. -/
inductive JsPermValue where
  | arr (perms : List String)
  | inherited
  | absentValue
deriving DecidableEq, Repr

/-- The property names a plain object literal inherits from
Object.prototype; reading any of them yields a truthy non-array (a function,
or the prototype object itself for __proto__). -/
def objectPrototypeKeys : List String :=
  ["constructor", "hasOwnProperty", "isPrototypeOf", "propertyIsEnumerable",
   "toLocaleString", "toString", "valueOf", "__proto__",
   "__defineGetter__", "__defineSetter__", "__lookupGetter__",
   "__lookupSetter__"]

/-- The faithful model of `rolePermissions[role]`: the object's own keys
"admin" and "user" yield their permission arrays; a key inherited from
Object.prototype yields a truthy non-array via the prototype chain; any
other key is undefined. -/
def rolePermissionsLookup (role : String) : JsPermValue :=
  if role = "admin" then .arr adminPermissions
  else if role = "user" then .arr userPermissions
  else if role ∈ objectPrototypeKeys then .inherited
  else .absentValue

/-- The TypeError raised by `permissions.includes(permission)` when the
prototype-chain lookup produced a truthy non-array, so that the `|| []`
fallback did not engage. -/
def jsTypeError : String := "TypeError: permissions.includes is not a function"

/-- hasPermission under full JavaScript semantics: an inherited truthy
non-array survives `|| []` and the subsequent `.includes` call throws. -/
def hasPermissionJs (user : Option User) (permission : String) :
    Except String Bool :=
  match user with
  | none => .ok false
  | some u =>
    match rolePermissionsLookup (jsRole u.role) with
    | .arr perms => .ok (perms.contains permission)
    | .inherited => .error jsTypeError
    | .absentValue => .ok false

/-- A concrete administrator record. -/
def adminUser : User :=
  { id := 1, username := "root", email := "root@example.com", password := "h1",
    bio := none, role := some "admin", createdAt := 0, lastLogin := some 0,
    failedLoginAttempts := 0, accountStatus := .active,
    passwordResetToken := none, passwordResetExpires := none,
    lastPasswordReset := none }

/-- A concrete regular-user record. -/
def regularUser : User :=
  { id := 2, username := "alice", email := "alice@example.com", password := "h2",
    bio := none, role := some "user", createdAt := 0, lastLogin := some 0,
    failedLoginAttempts := 0, accountStatus := .active,
    passwordResetToken := none, passwordResetExpires := none,
    lastPasswordReset := none }

/-- A record whose role column is absent. -/
def noRoleUser : User :=
  { id := 3, username := "bob", email := "bob@example.com", password := "h3",
    bio := none, role := none, createdAt := 0, lastLogin := some 0,
    failedLoginAttempts := 0, accountStatus := .active,
    passwordResetToken := none, passwordResetExpires := none,
    lastPasswordReset := none }

/-- A record with a role string outside the permission table. -/
def weirdRoleUser : User :=
  { id := 4, username := "carol", email := "carol@example.com", password := "h4",
    bio := none, role := some "moderator", createdAt := 0, lastLogin := some 0,
    failedLoginAttempts := 0, accountStatus := .active,
    passwordResetToken := none, passwordResetExpires := none,
    lastPasswordReset := none }

/-- C1 counterexample: the claim asserts hasPermission(regularUser,
"games.delete") is false, but the user role's permission list in the source
contains "games.delete" (delete of the user's own games; ownership is gated
separately by the route handlers), so the lookup returns true. -/
theorem c1_regularUser_games_delete :
    hasPermission (some regularUser) "games.delete" = true := by decide

/-- C1 (amended): in the static role-permission table, hasPermission grants
"games.delete" to the admin user and also to the regular user (the user role
carries the coarse games.delete permission for the user's own games), while
an anonymous (undefined) caller is denied every permission. -/
theorem c1_hasPermission_table :
    hasPermission (some adminUser) "games.delete" = true ∧
    hasPermission (some regularUser) "games.delete" = true ∧
    ∀ p : String, hasPermission none p = false := by
  refine ⟨by decide, by decide, fun p => rfl⟩

/-- A record whose role string names an inherited Object.prototype
property. -/
def constructorRoleUser : User :=
  { id := 5, username := "mallory", email := "mallory@example.com",
    password := "h5", bio := none, role := some "constructor", createdAt := 0,
    lastLogin := some 0, failedLoginAttempts := 0, accountStatus := .active,
    passwordResetToken := none, passwordResetExpires := none,
    lastPasswordReset := none }

/-- C10 counterexample: the role string "constructor" is not in the table
(neither "user" nor "admin"), yet hasPermission does not return false —
`rolePermissions["constructor"]` finds the inherited Object constructor on
the prototype chain, a truthy non-array, so `|| []` does not engage and
`permissions.includes` throws a TypeError. -/
theorem c10_prototype_role_throws :
    "constructor" ≠ "user" ∧ "constructor" ≠ "admin" ∧
    hasPermissionJs (some constructorRoleUser) "games.read" =
      .error jsTypeError := by
  refine ⟨by decide, by decide, rfl⟩

/-- C10 (amended): hasPermission never throws and a present user's role
falls back as claimed, except on role strings naming inherited
Object.prototype properties.  A missing or empty role string falls back to
the "user" role's permission list; an anonymous caller gets false; a role
string that is neither "user" nor "admin" nor an Object.prototype property
name reads undefined, so the empty-list fallback engages and every
permission is denied; but a role string naming an Object.prototype property
(constructor, toString, __proto__, ...) makes the lookup return a truthy
non-array and hasPermission throws a TypeError instead of returning
false. -/
theorem c10_hasPermission_totality (u v w : User) (p r q : String)
    (hu : u.role = none ∨ u.role = some "")
    (hv : v.role = some r) (hr1 : r ≠ "") (hr2 : r ≠ "user")
    (hr3 : r ≠ "admin") (hr4 : r ∉ objectPrototypeKeys)
    (hw : w.role = some q) (hq : q ∈ objectPrototypeKeys) :
    hasPermissionJs none p = .ok false ∧
    hasPermissionJs (some u) p = .ok (userPermissions.contains p) ∧
    hasPermissionJs (some v) p = .ok false ∧
    hasPermissionJs (some w) p = .error jsTypeError := by
  have hq1 : q ≠ "" := by intro h; subst h; revert hq; decide
  have hq2 : q ≠ "user" := by intro h; subst h; revert hq; decide
  have hq3 : q ≠ "admin" := by intro h; subst h; revert hq; decide
  refine ⟨rfl, ?_, ?_, ?_⟩
  · have hrole : jsRole u.role = "user" := by
      rcases hu with h | h <;> simp [jsRole, h]
    simp [hasPermissionJs, hrole, rolePermissionsLookup]
  · have hrole : jsRole v.role = r := by simp [jsRole, hv, hr1]
    simp [hasPermissionJs, hrole, rolePermissionsLookup, hr2, hr3, hr4]
  · have hrole : jsRole w.role = q := by simp [jsRole, hw, hq1]
    simp [hasPermissionJs, hrole, rolePermissionsLookup, hq2, hq3, hq]

/-- Witness for C10 at concrete inputs: the null-role user falls back to the
"user" permission list, the "moderator" user is denied "games.read", and the
"constructor" user makes the check throw. -/
theorem c10_hasPermission_totality_witness :
    hasPermissionJs none "games.read" = .ok false ∧
    hasPermissionJs (some noRoleUser) "games.read" =
      .ok (userPermissions.contains "games.read") ∧
    hasPermissionJs (some weirdRoleUser) "games.read" = .ok false ∧
    hasPermissionJs (some constructorRoleUser) "games.read" =
      .error jsTypeError :=
  c10_hasPermission_totality noRoleUser weirdRoleUser constructorRoleUser
    "games.read" "moderator" "constructor" (Or.inl rfl) rfl (by decide)
    (by decide) (by decide) (by decide) rfl (by decide)

/-! ## Password policy (passwordPolicy module, class PasswordPolicy)

The default singleton instance: minLength 8, maxLength 100, no additional
common passwords. -/

def pwMinLength : Nat := 8
def pwMaxLength : Nat := 100

/-- Character class of the regex [A-Z]. -/
def isUpperCh (c : Char) : Bool := 'A' ≤ c && c ≤ 'Z'

/-- Character class of the regex [a-z]. -/
def isLowerCh (c : Char) : Bool := 'a' ≤ c && c ≤ 'z'

/-- Character class of the regex [0-9]. -/
def isDigitCh (c : Char) : Bool := '0' ≤ c && c ≤ '9'

/-- Character class of the regex [^A-Za-z0-9]. -/
def isSymbolCh (c : Char) : Bool := !(isUpperCh c || isLowerCh c || isDigitCh c)

def hasUpper (p : String) : Bool := p.data.any isUpperCh
def hasLower (p : String) : Bool := p.data.any isLowerCh
def hasDigit (p : String) : Bool := p.data.any isDigitCh
def hasSymbol (p : String) : Bool := p.data.any isSymbolCh

/-- Models String.prototype.toLowerCase for the ASCII range. -/
def toLowerStr (p : String) : String := String.mk (p.data.map Char.toLower)

/-- The blocked common-password set of the default policy instance. -/
def commonPasswords : List String :=
  ["123456", "123456789", "qwerty", "password", "12345", "qwerty123",
   "1q2w3e", "12345678", "111111", "1234567890", "senha", "admin",
   "welcome", "monkey", "login", "abc123", "starwars", "123123",
   "dragon", "passw0rd", "master", "hello", "freedom", "whatever",
   "senha123", "administrador", "123mudar", "adminadmin", "usuario",
   "controle", "futebol", "flamengo", "corinthians", "palmeiras",
   "brasil", "102030", "bemvindo", "portugal", "mudar123"]

/-- Keyboard-adjacency sequences scanned by hasSimplePatterns. -/
def keyboardSequences : List String :=
  ["qwertyuiop", "asdfghjkl", "zxcvbnm",
   "qazwsx", "wsxedc", "edcrfv", "rfvtgb", "tgbyhn", "yhnujm",
   "1qaz", "2wsx", "3edc", "4rfv", "5tgb", "6yhn", "7ujm",
   "123456789", "987654321", "abcdefghijklmnopqrstuvwxyz"]

/-- All 3-character sliding windows of a character list, i.e. the substrings
seq.substring(i, i+3) for 0 ≤ i ≤ length - 3. -/
def windows3 : List Char → List (List Char)
  | a :: b :: c :: rest => [a, b, c] :: windows3 (b :: c :: rest)
  | _ => []

/-- String.prototype.includes: pat occurs as a contiguous slice. -/
def containsSlice (pat : List Char) : List Char → Bool
  | [] => pat.isPrefixOf []
  | a :: rest => pat.isPrefixOf (a :: rest) || containsSlice pat rest

/-- Some 3-character substring of a keyboard sequence occurs in the
(lowercased) password. -/
def keyboardPatternHit (lower : List Char) : Bool :=
  keyboardSequences.any fun seq =>
    (windows3 seq.data).any fun pat => containsSlice pat lower

/-- Three identical consecutive characters. -/
def tripleRepeatHit (lower : List Char) : Bool :=
  (windows3 lower).any fun w =>
    match w with
    | [a, b, c] => a == b && a == c
    | _ => false

/-- A 3-character ascending or descending character-code run. -/
def seqRunHit (lower : List Char) : Bool :=
  (windows3 lower).any fun w =>
    match w with
    | [a, b, c] =>
        (b.toNat == a.toNat + 1 && c.toNat == b.toNat + 1) ||
        (b.toNat + 1 == a.toNat && c.toNat + 1 == b.toNat)
    | _ => false

/-- PasswordPolicy.hasSimplePatterns: scans the lowercased password for
keyboard sequences, triple repeats and monotone character-code runs. -/
def hasSimplePatterns (password : String) : Bool :=
  let lower := (toLowerStr password).data
  keyboardPatternHit lower || tripleRepeatHit lower || seqRunHit lower

/-- Error message for a too-short password (minLength 8 interpolated). -/
def errMinLength : String := "A senha deve ter pelo menos 8 caracteres"
/-- Error message for a too-long password (maxLength 100 interpolated). -/
def errMaxLength : String := "A senha não pode ter mais de 100 caracteres"
def errUpper : String := "A senha deve conter pelo menos uma letra maiúscula"
def errLower : String := "A senha deve conter pelo menos uma letra minúscula"
def errDigit : String := "A senha deve conter pelo menos um número"
def errSymbol : String := "A senha deve conter pelo menos um caractere especial"
def errCommon : String :=
  "Esta senha é muito comum e fácil de adivinhar. Escolha uma senha mais única"
def errPatterns : String :=
  "Evite usar padrões simples como sequências de teclas ou números"

structure PasswordValidationResult where
  isValid : Bool
  errors : List String
deriving DecidableEq, Repr

/-- PasswordPolicy.validate: accumulates the error messages in source order;
checks other than the minimum length are guarded by the password being
nonempty (JavaScript truthiness of the string). -/
def validate (password : String) : PasswordValidationResult :=
  let errors : List String :=
    (if password = "" ∨ password.length < pwMinLength then [errMinLength] else []) ++
    (if password ≠ "" ∧ pwMaxLength < password.length then [errMaxLength] else []) ++
    (if password ≠ "" ∧ ¬ hasUpper password then [errUpper] else []) ++
    (if password ≠ "" ∧ ¬ hasLower password then [errLower] else []) ++
    (if password ≠ "" ∧ ¬ hasDigit password then [errDigit] else []) ++
    (if password ≠ "" ∧ ¬ hasSymbol password then [errSymbol] else []) ++
    (if password ≠ "" ∧ commonPasswords.contains (toLowerStr password) then [errCommon] else []) ++
    (if password ≠ "" ∧ hasSimplePatterns password then [errPatterns] else [])
  { isValid := errors.isEmpty, errors := errors }

lemma mem_ite_singleton {α : Type} (c : Prop) [Decidable c] (m a : α) :
    (a ∈ (if c then [m] else [])) ↔ c ∧ a = m := by
  by_cases h : c <;> simp [h]

/-- C6 counterexample: for the empty password the class checks are skipped
(JavaScript truthiness guard), so although the empty string violates the
at-least-one-uppercase rule, the errors list does not name it. -/
theorem c6_empty_password_errors :
    (validate "").isValid = false ∧ hasUpper "" = false ∧
    errUpper ∉ (validate "").errors := by decide

/-- C6 (amended): validate(p).isValid is true exactly when the length is
within [8, 100], all four character classes are present, the lowercased
password is not a common password, and no simple pattern occurs; when invalid,
the errors list names each violated rule, except that for the empty password
only the minimum-length rule is reported (the remaining checks are skipped on
the empty string). -/
theorem c6_validate_characterisation (p : String) :
    ((validate p).isValid = true ↔
      (pwMinLength ≤ p.length ∧ p.length ≤ pwMaxLength ∧
       hasUpper p = true ∧ hasLower p = true ∧ hasDigit p = true ∧
       hasSymbol p = true ∧
       commonPasswords.contains (toLowerStr p) = false ∧
       hasSimplePatterns p = false)) ∧
    ((errMinLength ∈ (validate p).errors) ↔ p.length < pwMinLength) ∧
    ((errMaxLength ∈ (validate p).errors) ↔ p ≠ "" ∧ pwMaxLength < p.length) ∧
    ((errUpper ∈ (validate p).errors) ↔ p ≠ "" ∧ hasUpper p = false) ∧
    ((errLower ∈ (validate p).errors) ↔ p ≠ "" ∧ hasLower p = false) ∧
    ((errDigit ∈ (validate p).errors) ↔ p ≠ "" ∧ hasDigit p = false) ∧
    ((errSymbol ∈ (validate p).errors) ↔ p ≠ "" ∧ hasSymbol p = false) ∧
    ((errCommon ∈ (validate p).errors) ↔
       p ≠ "" ∧ commonPasswords.contains (toLowerStr p) = true) ∧
    ((errPatterns ∈ (validate p).errors) ↔ p ≠ "" ∧ hasSimplePatterns p = true) := by
  have hlen : p = "" → p.length = 0 := fun h => by simp [h]
  constructor
  · by_cases hp : p = ""
    · subst hp; decide
    · simp only [validate, List.isEmpty_iff, List.append_eq_nil]
      simp [hp, Nat.not_lt, pwMinLength, pwMaxLength]
      tauto
  · refine ⟨?_, ?_, ?_, ?_, ?_, ?_, ?_, ?_⟩ <;>
    · simp [validate, mem_ite_singleton, errMinLength, errMaxLength, errUpper,
        errLower, errDigit, errSymbol, errCommon, errPatterns]
      try tauto
      try (intro h; rw [hlen h]; decide)

/-! ## Password generator (PasswordPolicy.generateStrongPassword)

Math.random outcomes are modelled by an explicit stream of natural-number
choices; each `Math.floor(Math.random() * n)` draw takes the next element of
the stream modulo n, which ranges over exactly the outcomes the source can
draw. -/

def lowercaseChars : List Char := "abcdefghijklmnopqrstuvwxyz".data
def uppercaseChars : List Char := "ABCDEFGHIJKLMNOPQRSTUVWXYZ".data
def numberChars : List Char := "0123456789".data
def specialChars : List Char := "!@#$%^&*()_+-=[]\x7b\x7d|;:,.<>?".data
def allGenChars : List Char :=
  lowercaseChars ++ uppercaseChars ++ numberChars ++ specialChars

/-- Pop the next choice off the stream (0 if exhausted). -/
def takeChoice : List Nat → Nat × List Nat
  | [] => (0, [])
  | r :: rs => (r, rs)

/-- Math.floor(Math.random() * n): an arbitrary value below n. -/
def choiceBelow (n : Nat) (rs : List Nat) : Nat × List Nat :=
  let t := takeChoice rs
  (t.1 % n, t.2)

/-- chars[Math.floor(Math.random() * chars.length)] -/
def pickFrom (chars : List Char) (rs : List Nat) : Char × List Nat :=
  let t := choiceBelow chars.length rs
  (chars.getD t.1 'a', t.2)

/-- The fill loop: n further characters drawn from allGenChars. -/
def genFill : Nat → List Nat → List Char × List Nat
  | 0, rs => ([], rs)
  | n + 1, rs =>
    let c := pickFrom allGenChars rs
    let rest := genFill n c.2
    (c.1 :: rest.1, rest.2)

/-- The destructuring swap [arr[i], arr[j]] = [arr[j], arr[i]]. -/
def swapChars (l : List Char) (i j : Nat) : List Char :=
  let a := l.getD i ' '
  let b := l.getD j ' '
  (l.set i b).set j a

/-- The Fisher-Yates loop: for i from the given index down to 1,
swap position i with a drawn position j ≤ i. -/
def fisherYates : List Char → Nat → List Nat → List Char × List Nat
  | l, 0, rs => (l, rs)
  | l, i + 1, rs =>
    let t := choiceBelow (i + 2) rs
    fisherYates (swapChars l (i + 1) t.1) i t.2

/-- The pre-shuffle components of a generated password: the drawn length
(12 + a draw below 5), one character from each required class, and the fill. -/
structure GenParts where
  len : Nat
  c1 : Char
  c2 : Char
  c3 : Char
  c4 : Char
  fill : List Char
  rest : List Nat

def genParts (rs : List Nat) : GenParts :=
  let t0 := choiceBelow 5 rs
  let length := 12 + t0.1
  let p1 := pickFrom lowercaseChars t0.2
  let p2 := pickFrom uppercaseChars p1.2
  let p3 := pickFrom numberChars p2.2
  let p4 := pickFrom specialChars p3.2
  let fill := genFill (length - 4) p4.2
  ⟨length, p1.1, p2.1, p3.1, p4.1, fill.1, fill.2⟩

/-- PasswordPolicy.generateStrongPassword: one character of each class, the
random fill, then a Fisher-Yates shuffle over indices length-1 down to 1. -/
def generateStrongPassword (rs : List Nat) : String :=
  let g := genParts rs
  let base := g.c1 :: g.c2 :: g.c3 :: g.c4 :: g.fill
  String.mk (fisherYates base (base.length - 1) g.rest).1

lemma getD_of_lt {α : Type} (l : List α) (i : Nat) (d : α) (h : i < l.length) :
    l.getD i d = l[i] := by
  simp [List.getD_eq_getElem?_getD, List.getElem?_eq_getElem h]

lemma length_swapChars (l : List Char) (i j : Nat) :
    (swapChars l i j).length = l.length := by
  simp [swapChars]

lemma count_swapChars (l : List Char) (i j : Nat) (hi : i < l.length)
    (hj : j < l.length) (b : Char) :
    (swapChars l i j).count b = l.count b := by
  have hj1 : j < (l.set i l[j]).length := by simpa using hj
  have hgj : (l.set i l[j])[j] = l[j] := by
    rw [List.getElem_set]
    split <;> rfl
  have e2 := List.count_set (l[i]) b (l.set i l[j]) j hj1
  have e1 := List.count_set (l[j]) b l i hi
  rw [hgj] at e2
  unfold swapChars
  rw [getD_of_lt _ _ _ hi, getD_of_lt _ _ _ hj, e2, e1]
  by_cases hx : l[i] == b
  · have hmem : b ∈ l := by
      have hb : l[i] = b := eq_of_beq hx
      exact hb ▸ List.getElem_mem hi
    have hcnt : 0 < l.count b := List.count_pos_iff.mpr hmem
    by_cases hy : l[j] == b <;> simp [hx, hy] <;> omega
  · by_cases hy : l[j] == b <;> simp [hx, hy] <;> omega

lemma length_fisherYates :
    ∀ (i : Nat) (l : List Char) (rs : List Nat),
      (fisherYates l i rs).1.length = l.length := by
  intro i
  induction i with
  | zero => intro l rs; simp [fisherYates]
  | succ n ih =>
    intro l rs
    unfold fisherYates
    rw [ih, length_swapChars]

lemma count_fisherYates :
    ∀ (i : Nat) (l : List Char) (rs : List Nat), i < l.length →
      ∀ b, ((fisherYates l i rs).1.count b) = l.count b := by
  intro i
  induction i with
  | zero => intro l rs _ b; simp [fisherYates]
  | succ n ih =>
    intro l rs h b
    unfold fisherYates
    have hj : (choiceBelow (n + 2) rs).1 < l.length := by
      have := Nat.mod_lt (takeChoice rs).1 (show 0 < n + 2 by omega)
      simp only [choiceBelow]
      omega
    have hn : n < (swapChars l (n + 1) (choiceBelow (n + 2) rs).1).length := by
      rw [length_swapChars]; omega
    rw [ih _ _ hn b, count_swapChars l (n + 1) _ h hj b]

lemma mem_fisherYates (i : Nat) (l : List Char) (rs : List Nat)
    (h : i < l.length) (b : Char) :
    b ∈ (fisherYates l i rs).1 ↔ b ∈ l := by
  rw [← List.count_pos_iff, ← List.count_pos_iff,
    count_fisherYates i l rs h b]

lemma length_genFill : ∀ (n : Nat) (rs : List Nat), (genFill n rs).1.length = n := by
  intro n
  induction n with
  | zero => intro rs; simp [genFill]
  | succ m ih => intro rs; simp [genFill, ih]

lemma pickFrom_mem (chars : List Char) (rs : List Nat) (h : chars ≠ []) :
    (pickFrom chars rs).1 ∈ chars := by
  have hlen : 0 < chars.length := List.length_pos.mpr h
  have hlt : (takeChoice rs).1 % chars.length < chars.length :=
    Nat.mod_lt _ hlen
  simp only [pickFrom, choiceBelow]
  rw [getD_of_lt _ _ _ hlt]
  exact List.getElem_mem hlt

lemma genParts_c1 (rs : List Nat) : (genParts rs).c1 ∈ lowercaseChars := by
  simp only [genParts]
  exact pickFrom_mem _ _ (by decide)

lemma genParts_c2 (rs : List Nat) : (genParts rs).c2 ∈ uppercaseChars := by
  simp only [genParts]
  exact pickFrom_mem _ _ (by decide)

lemma genParts_c3 (rs : List Nat) : (genParts rs).c3 ∈ numberChars := by
  simp only [genParts]
  exact pickFrom_mem _ _ (by decide)

lemma genParts_c4 (rs : List Nat) : (genParts rs).c4 ∈ specialChars := by
  simp only [genParts]
  exact pickFrom_mem _ _ (by decide)

lemma genParts_len (rs : List Nat) :
    12 ≤ (genParts rs).len ∧ (genParts rs).len ≤ 16 := by
  simp only [genParts, choiceBelow]
  have h5 := Nat.mod_lt (takeChoice rs).1 (show 0 < 5 by decide)
  omega

lemma genParts_fill_len (rs : List Nat) :
    (genParts rs).fill.length = (genParts rs).len - 4 := by
  simp only [genParts, length_genFill]

/-- Every lowercase-alphabet character satisfies the [a-z] class. -/
lemma lowercase_class : ∀ c ∈ lowercaseChars, isLowerCh c = true := by decide

lemma uppercase_class : ∀ c ∈ uppercaseChars, isUpperCh c = true := by decide

lemma number_class : ∀ c ∈ numberChars, isDigitCh c = true := by decide

lemma special_class :
    ∀ c ∈ specialChars, isSymbolCh c = true ∧ Char.toLower c = c := by decide

/-- Every entry of the common-password set consists solely of alphanumeric
characters. -/
lemma common_all_alnum :
    ∀ s ∈ commonPasswords, ∀ c ∈ s.data,
      (isUpperCh c || isLowerCh c || isDigitCh c) = true := by decide

/-- The shuffled password is a rearrangement of the pre-shuffle list. -/
lemma generate_mem (rs : List Nat) (b : Char) :
    b ∈ (generateStrongPassword rs).data ↔
      b ∈ (genParts rs).c1 :: (genParts rs).c2 :: (genParts rs).c3 ::
          (genParts rs).c4 :: (genParts rs).fill := by
  have hlen : 12 ≤ (genParts rs).len := (genParts_len rs).1
  have hbase :
      ((genParts rs).c1 :: (genParts rs).c2 :: (genParts rs).c3 ::
        (genParts rs).c4 :: (genParts rs).fill).length = (genParts rs).len := by
    simp [genParts_fill_len rs]
    omega
  have hlt :
      ((genParts rs).c1 :: (genParts rs).c2 :: (genParts rs).c3 ::
        (genParts rs).c4 :: (genParts rs).fill).length - 1 <
      ((genParts rs).c1 :: (genParts rs).c2 :: (genParts rs).c3 ::
        (genParts rs).c4 :: (genParts rs).fill).length := by
    rw [hbase]; omega
  simpa only [generateStrongPassword] using mem_fisherYates _ _ _ hlt b

lemma generate_length (rs : List Nat) :
    (generateStrongPassword rs).length = (genParts rs).len := by
  have hlen : 12 ≤ (genParts rs).len := (genParts_len rs).1
  have hbase :
      ((genParts rs).c1 :: (genParts rs).c2 :: (genParts rs).c3 ::
        (genParts rs).c4 :: (genParts rs).fill).length = (genParts rs).len := by
    simp [genParts_fill_len rs]
    omega
  simp only [generateStrongPassword, String.length, length_fisherYates]
  exact hbase

/-- C9 counterexample: a concrete outcome of the random draws for which the
generated password contains the ascending run "abc", so it fails validate —
generation does not re-check the simple-pattern rule. -/
def c9Choices : List Nat :=
  [0, 0, 0, 0, 0, 0, 1, 2, 0, 1, 2, 0, 1, 11, 10, 9, 8, 7, 6, 5, 4, 3, 2, 1]

/-- C9 counterexample theorem: validate(generate()) is not always true — at
the choice stream c9Choices the generated password is "aA0!abcabcab", which
contains a simple pattern and is rejected by validate. -/
theorem c9_generated_password_can_fail_validate :
    generateStrongPassword c9Choices = "aA0!abcabcab" ∧
    (validate (generateStrongPassword c9Choices)).isValid = false := by
  constructor <;> decide

/-- C9 (amended): for every outcome of the internal random choices, the
generated password has length between 12 and 16, contains at least one
lowercase letter, one uppercase letter, one digit and one symbol, and is
never a common password; the simple-pattern rule, however, is not guaranteed
(see the counterexample), so validate(generate()) need not be true. -/
theorem c9_generate_strong_password (rs : List Nat) :
    12 ≤ (generateStrongPassword rs).length ∧
    (generateStrongPassword rs).length ≤ 16 ∧
    hasLower (generateStrongPassword rs) = true ∧
    hasUpper (generateStrongPassword rs) = true ∧
    hasDigit (generateStrongPassword rs) = true ∧
    hasSymbol (generateStrongPassword rs) = true ∧
    commonPasswords.contains (toLowerStr (generateStrongPassword rs)) = false := by
  obtain ⟨hl, hu⟩ := genParts_len rs
  refine ⟨?_, ?_, ?_, ?_, ?_, ?_, ?_⟩
  · rw [generate_length]; exact hl
  · rw [generate_length]; exact hu
  · exact List.any_eq_true.mpr
      ⟨(genParts rs).c1, (generate_mem rs _).mpr (by simp),
        lowercase_class _ (genParts_c1 rs)⟩
  · exact List.any_eq_true.mpr
      ⟨(genParts rs).c2, (generate_mem rs _).mpr (by simp),
        uppercase_class _ (genParts_c2 rs)⟩
  · exact List.any_eq_true.mpr
      ⟨(genParts rs).c3, (generate_mem rs _).mpr (by simp),
        number_class _ (genParts_c3 rs)⟩
  · exact List.any_eq_true.mpr
      ⟨(genParts rs).c4, (generate_mem rs _).mpr (by simp),
        (special_class _ (genParts_c4 rs)).1⟩
  · by_contra hcon
    have htrue : commonPasswords.contains (toLowerStr (generateStrongPassword rs)) = true := by
      revert hcon
      cases commonPasswords.contains (toLowerStr (generateStrongPassword rs)) <;> simp
    have hmem : toLowerStr (generateStrongPassword rs) ∈ commonPasswords := by
      simpa [List.contains] using List.elem_iff.mp (by simpa [List.contains] using htrue)
    obtain ⟨hsym, hfix⟩ := special_class _ (genParts_c4 rs)
    have hc4 : (genParts rs).c4 ∈ (generateStrongPassword rs).data :=
      (generate_mem rs _).mpr (by simp)
    have hc4low : (genParts rs).c4 ∈ (toLowerStr (generateStrongPassword rs)).data := by
      simp only [toLowerStr]
      exact hfix ▸ List.mem_map_of_mem Char.toLower hc4
    have halnum := common_all_alnum _ hmem _ hc4low
    simp [isSymbolCh, halnum] at hsym

/-! ## Login and account lockout (auth module, POST /api/login)

The handler is modelled as a step function over the stored user record.
The password comparison is abstracted by a boolean (comparePasswords result);
the current time is a millisecond timestamp.  The net effect of the storage
calls (incrementLoginAttempt, resetUserLoginAttempts, updateUserLastLogin,
updateUserAccountStatus) is reflected into the returned record. -/

def MAX_LOGIN_ATTEMPTS : Nat := 5
def ACCOUNT_LOCK_TIME_MS : Nat := 30 * 60 * 1000

/-- Math.ceil(a / b) on nonnegative values. -/
def ceilDiv (a b : Nat) : Nat := (a + b - 1) / b

inductive LoginOutcome where
  | success
  | invalidCredentials (remainingAttempts : Nat)
  | accountLocked (remainingMinutes : Nat)
  | accountSuspended
  | accountInactive
deriving DecidableEq, Repr

/-- The password-check tail of the login handler, reached with an active
account (either already active or just auto-unlocked). -/
def checkPassword (u : User) (passwordOk : Bool) (now : Nat) :
    LoginOutcome × User :=
  if passwordOk then
    (.success, { u with failedLoginAttempts := 0, lastLogin := some now })
  else
    let newAttempts := u.failedLoginAttempts + 1
    if MAX_LOGIN_ATTEMPTS ≤ newAttempts then
      (.accountLocked 30,
        { u with failedLoginAttempts := newAttempts,
                 accountStatus := .locked, lastLogin := some now })
    else
      (.invalidCredentials (MAX_LOGIN_ATTEMPTS - newAttempts),
        { u with failedLoginAttempts := newAttempts })

/-- One POST /api/login attempt against an existing user record.  While
locked, the lockout reference time is the stamped lastLogin (the source
dereferences user.lastLogin!; a missing value is modelled as 0). -/
def loginStep (u : User) (passwordOk : Bool) (now : Nat) :
    LoginOutcome × User :=
  match u.accountStatus with
  | .locked =>
    let lockExpire := u.lastLogin.getD 0 + ACCOUNT_LOCK_TIME_MS
    if now < lockExpire then
      (.accountLocked (ceilDiv (lockExpire - now) 60000), u)
    else
      checkPassword
        { u with accountStatus := .active, failedLoginAttempts := 0 }
        passwordOk now
  | .suspended => (.accountSuspended, u)
  | .inactive => (.accountInactive, u)
  | .active => checkPassword u passwordOk now

/-- k consecutive failed attempts, all at time t0. -/
def failStreak (u : User) (t0 : Nat) : Nat → User
  | 0 => u
  | k + 1 => (loginStep (failStreak u t0 k) false t0).2

lemma loginStep_active_fail_small (u : User) (now : Nat)
    (hact : u.accountStatus = .active)
    (hlt : u.failedLoginAttempts + 1 < MAX_LOGIN_ATTEMPTS) :
    loginStep u false now =
      (.invalidCredentials (MAX_LOGIN_ATTEMPTS - (u.failedLoginAttempts + 1)),
       { u with failedLoginAttempts := u.failedLoginAttempts + 1 }) := by
  simp [loginStep, hact, checkPassword, Nat.not_le.mpr hlt]

lemma loginStep_active_fail_lock (u : User) (now : Nat)
    (hact : u.accountStatus = .active)
    (hge : MAX_LOGIN_ATTEMPTS ≤ u.failedLoginAttempts + 1) :
    loginStep u false now =
      (.accountLocked 30,
       { u with failedLoginAttempts := u.failedLoginAttempts + 1,
                accountStatus := .locked, lastLogin := some now }) := by
  simp [loginStep, hact, checkPassword, hge]

lemma failStreak_small (u : User) (t0 : Nat)
    (hact : u.accountStatus = .active) (hcnt : u.failedLoginAttempts = 0) :
    ∀ k, k ≤ 4 → failStreak u t0 k = { u with failedLoginAttempts := k } := by
  intro k
  induction k with
  | zero =>
    intro _
    cases u
    simp_all [failStreak]
  | succ n ih =>
    intro hle
    have hn : n ≤ 4 := by omega
    show (loginStep (failStreak u t0 n) false t0).2 = _
    rw [ih hn,
      loginStep_active_fail_small { u with failedLoginAttempts := n } t0 hact
        (by simp [MAX_LOGIN_ATTEMPTS]; omega)]

lemma failStreak_five (u : User) (t0 : Nat)
    (hact : u.accountStatus = .active) (hcnt : u.failedLoginAttempts = 0) :
    failStreak u t0 5 =
      { u with failedLoginAttempts := 5, accountStatus := .locked,
               lastLogin := some t0 } := by
  show (loginStep (failStreak u t0 4) false t0).2 = _
  rw [failStreak_small u t0 hact hcnt 4 (by omega),
    loginStep_active_fail_lock { u with failedLoginAttempts := 4 } t0 hact
      (by simp [MAX_LOGIN_ATTEMPTS])]

/-- C2: lockout state machine of the login handler.  Starting from an active
account with a zero failure counter: each failed password check increments
failedLoginAttempts (k ≤ 4 prior failures give k+1); the 5th failure
transitions the account to locked with the lockout reference time stamped
into lastLogin; while locked and before referenceTime + 30 minutes every
attempt — whatever the password-check outcome pw — is rejected as
AccountLocked with a remaining-minutes hint and the record unchanged; on an
attempt at or after expiry the account is re-activated with the counter
reset to 0 before the attempt is re-evaluated, so a correct password
succeeds (and a wrong one counts as a fresh first failure). -/
theorem c2_lockout_state_machine (u : User) (pw : Bool) (t0 t1 t2 k : Nat)
    (hact : u.accountStatus = .active) (hcnt : u.failedLoginAttempts = 0)
    (hk : k ≤ 4) (h1 : t1 < t0 + ACCOUNT_LOCK_TIME_MS)
    (h2 : t0 + ACCOUNT_LOCK_TIME_MS ≤ t2) :
    (failStreak u t0 k).failedLoginAttempts = k ∧
    (failStreak u t0 k).accountStatus = .active ∧
    (loginStep (failStreak u t0 k) false t0).2.failedLoginAttempts = k + 1 ∧
    (failStreak u t0 5).accountStatus = .locked ∧
    (failStreak u t0 5).failedLoginAttempts = 5 ∧
    (failStreak u t0 5).lastLogin = some t0 ∧
    (loginStep (failStreak u t0 5) pw t1).1 =
      .accountLocked (ceilDiv (t0 + ACCOUNT_LOCK_TIME_MS - t1) 60000) ∧
    (loginStep (failStreak u t0 5) pw t1).2 = failStreak u t0 5 ∧
    (loginStep (failStreak u t0 5) true t2).1 = .success ∧
    (loginStep (failStreak u t0 5) true t2).2.failedLoginAttempts = 0 ∧
    (loginStep (failStreak u t0 5) true t2).2.accountStatus = .active ∧
    (loginStep (failStreak u t0 5) false t2).1 = .invalidCredentials 4 ∧
    (loginStep (failStreak u t0 5) false t2).2.failedLoginAttempts = 1 ∧
    (loginStep (failStreak u t0 5) false t2).2.accountStatus = .active := by
  have hsk := failStreak_small u t0 hact hcnt k hk
  have h5 := failStreak_five u t0 hact hcnt
  have hnotlt : ¬ t2 < t0 + ACCOUNT_LOCK_TIME_MS := by omega
  refine ⟨by rw [hsk], by rw [hsk]; exact hact, ?_, by rw [h5], by rw [h5],
    by rw [h5], ?_, ?_, ?_, ?_, ?_, ?_, ?_, ?_⟩
  · by_cases hc : k = 4
    · subst hc
      rw [hsk, loginStep_active_fail_lock { u with failedLoginAttempts := 4 }
        t0 hact (by simp [MAX_LOGIN_ATTEMPTS])]
    · rw [hsk, loginStep_active_fail_small { u with failedLoginAttempts := k }
        t0 hact (by simp [MAX_LOGIN_ATTEMPTS]; omega)]
  · rw [h5]; simp [loginStep, h1]
  · rw [h5]; simp [loginStep, h1]
  · rw [h5]; simp [loginStep, hnotlt, checkPassword]
  · rw [h5]; simp [loginStep, hnotlt, checkPassword]
  · rw [h5]; simp [loginStep, hnotlt, checkPassword]
  · rw [h5]
    simp [loginStep, hnotlt, checkPassword, MAX_LOGIN_ATTEMPTS]
  · rw [h5]
    simp [loginStep, hnotlt, checkPassword, MAX_LOGIN_ATTEMPTS]
  · rw [h5]
    simp [loginStep, hnotlt, checkPassword, MAX_LOGIN_ATTEMPTS]

/-- Witness for C2 at concrete inputs: the sample regular user, k = 3 prior
failures, lock stamped at t0 = 0, a blocked correct-password attempt at t1 =
60000 (29 remaining minutes hint below as computed by ceilDiv), and re-entry
at t2 = 1800000. -/
theorem c2_lockout_state_machine_witness :
    (failStreak regularUser 0 3).failedLoginAttempts = 3 ∧
    (failStreak regularUser 0 3).accountStatus = .active ∧
    (loginStep (failStreak regularUser 0 3) false 0).2.failedLoginAttempts = 4 ∧
    (failStreak regularUser 0 5).accountStatus = .locked ∧
    (failStreak regularUser 0 5).failedLoginAttempts = 5 ∧
    (failStreak regularUser 0 5).lastLogin = some 0 ∧
    (loginStep (failStreak regularUser 0 5) true 60000).1 =
      .accountLocked (ceilDiv (0 + ACCOUNT_LOCK_TIME_MS - 60000) 60000) ∧
    (loginStep (failStreak regularUser 0 5) true 60000).2 = failStreak regularUser 0 5 ∧
    (loginStep (failStreak regularUser 0 5) true 1800000).1 = .success ∧
    (loginStep (failStreak regularUser 0 5) true 1800000).2.failedLoginAttempts = 0 ∧
    (loginStep (failStreak regularUser 0 5) true 1800000).2.accountStatus = .active ∧
    (loginStep (failStreak regularUser 0 5) false 1800000).1 = .invalidCredentials 4 ∧
    (loginStep (failStreak regularUser 0 5) false 1800000).2.failedLoginAttempts = 1 ∧
    (loginStep (failStreak regularUser 0 5) false 1800000).2.accountStatus = .active :=
  c2_lockout_state_machine regularUser true 0 60000 1800000 3 rfl rfl
    (by omega) (by decide) (by decide)

/-! ## Password-reset token lifecycle
(routes GET /api/reset-password/:token and POST /api/reset-password, with
storage.getUserByResetToken and storage.resetPassword)

The user store is a list of user records; the select on
passwordResetToken = token is the first matching record. -/

/-- storage.getUserByResetToken: select the record carrying the token. -/
def getUserByResetToken (store : List User) (token : String) : Option User :=
  store.find? fun u => u.passwordResetToken == some token

/-- The per-record update of storage.resetPassword. -/
def applyReset (u : User) (newHash : String) (now : Nat) : User :=
  { u with password := newHash, passwordResetToken := none,
           passwordResetExpires := none, lastPasswordReset := some now,
           failedLoginAttempts := 0, accountStatus := .active }

/-- storage.resetPassword: set the new hash, clear the token and its expiry
together, stamp lastPasswordReset, zero the failure counter, force active. -/
def resetPassword (store : List User) (userId : Nat) (newHash : String)
    (now : Nat) : List User :=
  store.map fun u => if u.id = userId then applyReset u newHash now else u

/-- The single error message of the reset routes ("Token inválido ou
expirado"): not-found and expired are not distinguished. -/
def resetTokenErrorMsg : String := "Token inválido ou expirado"

/-- GET /api/reset-password/:token — validate(token): user lookup followed
by the expiry check; the route rejects when the record or expiry is missing
or when expiry < now, with the single error message. -/
def validateResetToken (store : List User) (token : String) (now : Nat) :
    Except String Nat :=
  match getUserByResetToken store token with
  | none => .error resetTokenErrorMsg
  | some u =>
    match u.passwordResetExpires with
    | none => .error resetTokenErrorMsg
    | some e => if e < now then .error resetTokenErrorMsg else .ok u.id

/-- POST /api/reset-password — consume(token, newPasswordHash): the same
validity check, then resetPassword on the matched user. -/
def consumeResetToken (store : List User) (token : String) (newHash : String)
    (now : Nat) : Except String (List User) :=
  match getUserByResetToken store token with
  | none => .error resetTokenErrorMsg
  | some u =>
    match u.passwordResetExpires with
    | none => .error resetTokenErrorMsg
    | some e =>
      if e < now then .error resetTokenErrorMsg
      else .ok (resetPassword store u.id newHash now)

/-- Find a user record by id. -/
def findById (store : List User) (userId : Nat) : Option User :=
  store.find? fun u => u.id == userId

lemma getUserByResetToken_after_reset (store : List User) (token : String)
    (uid : Nat) (nh : String) (now : Nat)
    (huniq : ∀ v ∈ store, v.passwordResetToken = some token → v.id = uid) :
    getUserByResetToken (resetPassword store uid nh now) token = none := by
  rw [getUserByResetToken, List.find?_eq_none]
  intro x hx
  simp only [resetPassword, List.mem_map] at hx
  obtain ⟨v, hv, rfl⟩ := hx
  by_cases hid : v.id = uid
  · simp [hid, applyReset]
  · simp only [hid, if_neg, ite_false, beq_iff_eq]
    intro hcon
    exact hid (huniq v hv hcon)

lemma findById_resetPassword (store : List User) (uid : Nat) (nh : String)
    (now : Nat) (h : (findById store uid).isSome) :
    ∃ v, findById (resetPassword store uid nh now) uid = some v ∧
      v.password = nh ∧ v.passwordResetToken = none ∧
      v.passwordResetExpires = none ∧ v.failedLoginAttempts = 0 ∧
      v.accountStatus = .active ∧ v.lastPasswordReset = some now := by
  induction store with
  | nil => simp [findById] at h
  | cons w rest ih =>
    by_cases hw : w.id = uid
    · refine ⟨applyReset w nh now, ?_, rfl, rfl, rfl, rfl, rfl, rfl⟩
      simp [findById, resetPassword, applyReset, List.find?_cons_of_pos, hw]
    · have hrest : (findById rest uid).isSome := by
        simpa [findById, List.find?_cons_of_neg, hw] using h
      obtain ⟨v, hv, hrest'⟩ := ih hrest
      refine ⟨v, ?_, hrest'⟩
      simpa [findById, resetPassword, List.find?_cons_of_neg, hw] using hv

/-- C3: consuming a valid reset token succeeds, and the resulting store holds
the user with the new credential hash, the token and its expiry cleared
together, the failure counter reset to 0, accountStatus forced to active and
the audit timestamp stamped; and the token is effectively single-use — a
second consume with the same token (at any later time, with any hash) fails
as the TokenExpiredOrInvalid error, performing no further update. -/
theorem c3_consume_reset_token (store : List User) (u : User)
    (token newHash newHash2 : String) (now now2 e : Nat)
    (hfind : getUserByResetToken store token = some u)
    (hexp : u.passwordResetExpires = some e)
    (hlive : ¬ e < now)
    (huniq : ∀ v ∈ store, v.passwordResetToken = some token → v.id = u.id) :
    consumeResetToken store token newHash now =
      .ok (resetPassword store u.id newHash now) ∧
    (∃ v, findById (resetPassword store u.id newHash now) u.id = some v ∧
      v.password = newHash ∧ v.passwordResetToken = none ∧
      v.passwordResetExpires = none ∧ v.failedLoginAttempts = 0 ∧
      v.accountStatus = .active ∧ v.lastPasswordReset = some now) ∧
    consumeResetToken (resetPassword store u.id newHash now) token newHash2 now2 =
      .error resetTokenErrorMsg := by
  refine ⟨by simp [consumeResetToken, hfind, hexp, hlive], ?_, ?_⟩
  · apply findById_resetPassword
    have hmem : u ∈ store := by
      have := List.mem_of_find?_eq_some hfind
      exact this
    rw [findById, List.find?_isSome]
    exact ⟨u, hmem, by simp⟩
  · simp [consumeResetToken,
      getUserByResetToken_after_reset store token u.id newHash now huniq]

/-- The user holding the sample reset token. -/
def resetSampleUser : User :=
  { id := 7, username := "dave", email := "dave@example.com",
    password := "oldhash", bio := none, role := some "user", createdAt := 0,
    lastLogin := some 0, failedLoginAttempts := 3, accountStatus := .locked,
    passwordResetToken := some "tok", passwordResetExpires := some 1000,
    lastPasswordReset := none }

/-- Witness for C3 at concrete inputs: a two-user store in which only
resetSampleUser carries the token "tok" (expiry 1000), consumed at time 500
and consumed again at time 600. -/
theorem c3_consume_reset_token_witness :
    consumeResetToken [regularUser, resetSampleUser] "tok" "newhash" 500 =
      .ok (resetPassword [regularUser, resetSampleUser] resetSampleUser.id "newhash" 500) ∧
    (∃ v, findById (resetPassword [regularUser, resetSampleUser]
        resetSampleUser.id "newhash" 500) resetSampleUser.id = some v ∧
      v.password = "newhash" ∧ v.passwordResetToken = none ∧
      v.passwordResetExpires = none ∧ v.failedLoginAttempts = 0 ∧
      v.accountStatus = .active ∧ v.lastPasswordReset = some 500) ∧
    consumeResetToken (resetPassword [regularUser, resetSampleUser]
        resetSampleUser.id "newhash" 500) "tok" "otherhash" 600 =
      .error resetTokenErrorMsg :=
  c3_consume_reset_token [regularUser, resetSampleUser] resetSampleUser
    "tok" "newhash" "otherhash" 500 600 1000 (by decide) rfl (by decide)
    (by decide)

/-- A user whose reset token expires exactly at time 1000. -/
def boundaryUser : User :=
  { id := 9, username := "erin", email := "erin@example.com",
    password := "h9", bio := none, role := some "user", createdAt := 0,
    lastLogin := some 0, failedLoginAttempts := 0, accountStatus := .active,
    passwordResetToken := some "btok", passwordResetExpires := some 1000,
    lastPasswordReset := none }

/-- C5 counterexample: the route rejects only when expiry < now, so at the
boundary now = expiry the token is still accepted, although no record
satisfies the claim's acceptance condition now < expiry. -/
theorem c5_validate_at_expiry :
    validateResetToken [boundaryUser] "btok" 1000 = .ok 9 ∧
    boundaryUser.passwordResetToken = some "btok" ∧
    boundaryUser.passwordResetExpires = some 1000 ∧ ¬ (1000 < 1000) := by
  refine ⟨rfl, rfl, rfl, by decide⟩

/-- C5 (amended): validate(token) returns the user carrying the token exactly
when such a record exists and now ≤ expiry (the code rejects only when
expiry < now, so the boundary instant is accepted); in every other case the
result is the single TokenExpiredOrInvalid error message, which does not
distinguish not-found from expired.  In particular a token with expiry t+1h
is accepted at t+59m and rejected at t+61m. -/
theorem c5_validate_token (store : List User) (token : String) (now : Nat) :
    ((∃ uid, validateResetToken store token now = .ok uid) ↔
      (∃ u e, getUserByResetToken store token = some u ∧
        u.passwordResetExpires = some e ∧ now ≤ e)) ∧
    (validateResetToken store token now = .error resetTokenErrorMsg ∨
      ∃ u, getUserByResetToken store token = some u ∧
        validateResetToken store token now = .ok u.id) := by
  rcases hfind : getUserByResetToken store token with _ | u
  · simp [validateResetToken, hfind]
  · rcases hexp : u.passwordResetExpires with _ | e
    · simp [validateResetToken, hfind, hexp]
    · by_cases hlt : e < now
      · simp [validateResetToken, hfind, hexp, hlt]
      · simp [validateResetToken, hfind, hexp, hlt]
        omega

/-! ## CSRF middleware (security module, setupSecurityMiddleware)

The token store is the activeCsrfTokens map, modelled as an association
list; the minutely sweep removes entries whose expiry has passed.  The
middleware itself checks only membership of the supplied token in the map —
it does not consult the entry's expiry. -/

structure CsrfEntry where
  expires : Nat
  userId : Option Nat
deriving DecidableEq, Repr

structure CsrfRequest where
  method : String
  path : String
  headerToken : Option String
  bodyToken : Option String
deriving DecidableEq, Repr

/-- The safe methods exempt from CSRF validation. -/
def safeMethods : List String := ["GET", "HEAD", "OPTIONS"]

/-- Paths exempt from CSRF validation (no session exists yet to bind to). -/
def bypassRoutes : List String :=
  ["/api/login", "/api/register", "/api/forgot-password", "/api/reset-password"]

/-- JavaScript truthiness for an optional string: undefined and "" are falsy. -/
def nonEmptyOpt : Option String → Option String
  | none => none
  | some s => if s = "" then none else some s

/-- The effective token of `headerToken || bodyToken` followed by the
falsiness test `!csrfToken`. -/
def effectiveToken (r : CsrfRequest) : Option String :=
  match r.headerToken with
  | some s => if s = "" then nonEmptyOpt r.bodyToken else some s
  | none => nonEmptyOpt r.bodyToken

/-- String.prototype.startsWith modelled over the character lists. -/
def strStartsWith (s pre : String) : Bool := pre.data.isPrefixOf s.data

/-- activeCsrfTokens.has(token). -/
def storeHas (store : List (String × CsrfEntry)) (t : String) : Bool :=
  store.any fun p => p.1 == t

/-- The CSRF middleware decision: true means the request passes on to the
next handler, false means the 403 CSRF_ERROR response. -/
def csrfCheck (store : List (String × CsrfEntry)) (r : CsrfRequest) : Bool :=
  let isMethodSafe := safeMethods.contains r.method
  if strStartsWith r.path "/api" && !isMethodSafe then
    let tokOk := match effectiveToken r with
      | none => false
      | some t => storeHas store t
    if !(bypassRoutes.contains r.path) && !tokOk then false else true
  else true

/-- The minutely sweep over activeCsrfTokens: delete entries whose expiry
has passed. -/
def sweepCsrfTokens (now : Nat) (store : List (String × CsrfEntry)) :
    List (String × CsrfEntry) :=
  store.filter fun p => !(p.2.expires < now)

/-- Issuing a fresh token on a response: stored with a 24-hour expiry and
the acting user id. -/
def issueCsrfToken (store : List (String × CsrfEntry)) (token : String)
    (now : Nat) (userId : Option Nat) : List (String × CsrfEntry) :=
  (token, ⟨now + 24 * 60 * 60 * 1000, userId⟩) :: store

/-- A mutating request to a protected API path carrying a sample token. -/
def sampleCsrfRequest : CsrfRequest :=
  { method := "POST", path := "/api/games", headerToken := some "tok",
    bodyToken := none }

/-- C7 counterexample: the middleware checks only membership in the token
map, not the entry's expiry.  With a store whose single entry for "tok"
expired at time 0, at now = 1 the sweep would delete every entry (so no
live, unexpired entry exists), yet the unswept store still passes the
mutating request — validation does not require the entry to be unexpired. -/
theorem c7_expired_token_passes :
    csrfCheck [("tok", ⟨0, none⟩)] sampleCsrfRequest = true ∧
    sweepCsrfTokens 1 [("tok", ⟨0, none⟩)] = [] ∧
    csrfCheck (sweepCsrfTokens 1 [("tok", ⟨0, none⟩)]) sampleCsrfRequest = false := by
  refine ⟨rfl, rfl, rfl⟩

/-- C7 (amended): for a mutating (non-GET/HEAD/OPTIONS) request to a
protected /api path outside the allow-list, the request passes the CSRF
check exactly when the token supplied in the x-csrf-token header or the
_csrf body field is present in the token store (expiry of an entry is
enforced only by the periodic sweep, not at validation time); a request
with no effective token is rejected; and the same request carrying a
freshly issued token passes. -/
theorem c7_csrf_validation (store : List (String × CsrfEntry))
    (r rEmpty : CsrfRequest) (ftok : String) (now : Nat) (uid : Option Nat)
    (hapi : strStartsWith r.path "/api" = true)
    (hmeth : r.method ∉ safeMethods)
    (hnotbypass : r.path ∉ bypassRoutes)
    (hft : effectiveToken r = some ftok)
    (hapi2 : strStartsWith rEmpty.path "/api" = true)
    (hmeth2 : rEmpty.method ∉ safeMethods)
    (hnotbypass2 : rEmpty.path ∉ bypassRoutes)
    (hnone : effectiveToken rEmpty = none) :
    (csrfCheck store r = true ↔ storeHas store ftok = true) ∧
    csrfCheck store rEmpty = false ∧
    csrfCheck (issueCsrfToken store ftok now uid) r = true := by
  refine ⟨?_, ?_, ?_⟩
  · simp [csrfCheck, hapi, hmeth, hnotbypass, hft]
  · simp [csrfCheck, hapi2, hmeth2, hnotbypass2, hnone]
  · simp [csrfCheck, hapi, hmeth, hnotbypass, hft, issueCsrfToken, storeHas]

/-- A mutating request to a protected API path carrying no token at all. -/
def emptyCsrfRequest : CsrfRequest :=
  { method := "POST", path := "/api/games", headerToken := none,
    bodyToken := none }

/-- Witness for C7 at concrete inputs: an empty store with the sample
request, the tokenless request, and the freshly issued token "tok". -/
theorem c7_csrf_validation_witness :
    (csrfCheck [] sampleCsrfRequest = true ↔ storeHas [] "tok" = true) ∧
    csrfCheck [] emptyCsrfRequest = false ∧
    csrfCheck (issueCsrfToken [] "tok" 5 (some 2)) sampleCsrfRequest = true :=
  c7_csrf_validation [] sampleCsrfRequest emptyCsrfRequest "tok" 5 (some 2)
    rfl (by decide) (by decide) rfl rfl (by decide) (by decide) rfl

/-! ## JWT session credential (auth module, generateToken)

The payload is built from the user record with the password removed; the
token is signed with expiresIn = "7d" (the default of JWT_EXPIRES_IN). -/

inductive JVal where
  | jnull
  | jstr (s : String)
  | jnum (n : Nat)
deriving DecidableEq, Repr

def optToJVal : Option String → JVal
  | none => .jnull
  | some s => .jstr s

/-- The default JWT expiry "7d" in seconds. -/
def JWT_EXPIRES_IN_SECONDS : Nat := 7 * 24 * 60 * 60

structure JwtToken where
  payload : List (String × JVal)
  expiresInSeconds : Nat
deriving DecidableEq, Repr

/-- generateToken: destructures the password out of the user record and
signs a payload of id, username, email, role, bio and createdAt. -/
def generateToken (u : User) : JwtToken :=
  { payload :=
      [("id", .jnum u.id), ("username", .jstr u.username),
       ("email", .jstr u.email), ("role", optToJVal u.role),
       ("bio", optToJVal u.bio), ("createdAt", .jstr (toString u.createdAt))],
    expiresInSeconds := JWT_EXPIRES_IN_SECONDS }

/-- C8: for every user record, the issued session credential encodes the
user's id, username, email and role, carries an expiry of at most 7 days,
and its payload has exactly the six password-free keys — in particular no
"password" field, so neither the raw nor the hashed password is embedded. -/
theorem c8_token_payload (u : User) :
    (generateToken u).payload.lookup "id" = some (.jnum u.id) ∧
    (generateToken u).payload.lookup "username" = some (.jstr u.username) ∧
    (generateToken u).payload.lookup "email" = some (.jstr u.email) ∧
    (generateToken u).payload.lookup "role" = some (optToJVal u.role) ∧
    (generateToken u).expiresInSeconds ≤ 7 * 24 * 60 * 60 ∧
    (generateToken u).payload.map Prod.fst =
      ["id", "username", "email", "role", "bio", "createdAt"] ∧
    "password" ∉ (generateToken u).payload.map Prod.fst := by
  refine ⟨rfl, ?_, ?_, ?_, le_refl _, rfl, ?_⟩ <;>
    simp [generateToken, List.lookup]

end EternalPortal
